import Mathlib

/-!
Verification of the techblog repository's Bio component and of the
build/listing behaviour its specification describes.

The Bio component lives in src/components/bio.js.  Its GraphQL query
(`bioQuery`) resolves an avatar file to a fixed 50×50 image variant and
reads the site metadata (author, social.twitter).  The render callback
destructures `data.site.siteMetadata`, logs
`data.avatar.childImageSharp.fixed` to the console, and returns a JSX
tree containing a `CustomImage` (a hard-coded `img` element), the author
name in a `strong` element, and a Twitter anchor whose href is the
template literal `https://twitter.com/${social.twitter}`.

The embedding below models the resolved query data (absent fields as
`Option`), the JSX markup as a tree of elements with styles and
attributes, and the JavaScript semantics relevant here: reading a
property of `undefined` throws a TypeError, a template literal
interpolates `undefined` as the string "undefined", and a JSX expression
child that is `undefined` renders nothing.
-/

namespace Techblog

/-! ### Resolved query data (shape of `bioQuery`'s result) -/

/-- The fixed image variant requested by `fixed(width: 50, height: 50)`. -/
structure Fixed where
  width : Nat
  height : Nat
  src : String
  deriving Repr, DecidableEq

structure ChildImageSharp where
  fixed : Option Fixed
  deriving Repr, DecidableEq

structure Avatar where
  childImageSharp : Option ChildImageSharp
  deriving Repr, DecidableEq

structure Social where
  twitter : Option String
  deriving Repr, DecidableEq

structure SiteMetadata where
  author : Option String
  social : Option Social
  deriving Repr, DecidableEq

structure Site where
  siteMetadata : Option SiteMetadata
  deriving Repr, DecidableEq

/-- The whole resolved result of `bioQuery`. -/
structure QueryData where
  avatar : Option Avatar
  site : Option Site
  deriving Repr, DecidableEq

/-! ### Markup model -/

/-- A value in a JSX inline-style object: the source uses numbers
(`maxWith: 42`) and strings (`width: "auto"`). -/
inductive StyleVal where
  | num (n : Int)
  | str (s : String)
  deriving Repr, DecidableEq

/-- A JSX/HTML node: an element with a tag, an inline-style list, an
attribute list and children, or a text node. -/
inductive Node where
  | element (tag : String) (style : List (String × StyleVal))
      (attrs : List (String × String)) (children : List Node)
  | text (s : String)

def Node.childNodes : Node → List Node
  | .element _ _ _ cs => cs
  | .text _ => []

/-- Look up a property in an element's inline style. -/
def styleLookup (n : Node) (k : String) : Option StyleVal :=
  match n with
  | .element _ style _ _ => (style.find? (fun p => p.1 == k)).map (fun p => p.2)
  | .text _ => none

/-- Look up an element attribute. -/
def attrLookup (n : Node) (k : String) : Option String :=
  match n with
  | .element _ _ attrs _ => (attrs.find? (fun p => p.1 == k)).map (fun p => p.2)
  | .text _ => none

def renderStyleVal : StyleVal → String
  | .num n => toString n
  | .str s => s

def renderStyle (style : List (String × StyleVal)) : String :=
  match style with
  | [] => ""
  | _ => " style=\x22" ++ String.intercalate ";"
      (style.map (fun p => p.1 ++ ":" ++ renderStyleVal p.2)) ++ "\x22"

def renderAttrs (attrs : List (String × String)) : String :=
  String.join (attrs.map (fun p => " " ++ p.1 ++ "=\x22" ++ p.2 ++ "\x22"))

mutual

/-- Serialize a node to its markup string (attribute order as written). -/
def Node.render : Node → String
  | .text s => s
  | .element tag style attrs children =>
      "<" ++ tag ++ renderStyle style ++ renderAttrs attrs ++ ">"
        ++ renderNodes children ++ "</" ++ tag ++ ">"

def renderNodes : List Node → String
  | [] => ""
  | n :: ns => Node.render n ++ renderNodes ns

end

mutual

/-- All text-node contents of a tree, in document order (the visible text). -/
def Node.textPieces : Node → List String
  | .text s => [s]
  | .element _ _ _ children => textPiecesList children

def textPiecesList : List Node → List String
  | [] => []
  | n :: ns => Node.textPieces n ++ textPiecesList ns

end

mutual

/-- All elements of the tree with the given tag, in document order. -/
def Node.elemsWithTag (t : String) : Node → List Node
  | .text _ => []
  | .element tag style attrs children =>
      (if tag == t then [.element tag style attrs children] else [])
        ++ elemsWithTagList t children

def elemsWithTagList (t : String) : List Node → List Node
  | [] => []
  | n :: ns => Node.elemsWithTag t n ++ elemsWithTagList t ns

end

/-! ### JavaScript semantics used by the component -/

/-- Template-literal interpolation: `undefined` prints as "undefined". -/
def jsInterp : Option String → String
  | some s => s
  | none => "undefined"

/-- A JSX expression child `{e}`: `undefined` renders nothing. -/
def jsxChild : Option String → List Node
  | some s => [Node.text s]
  | none => []

/-- What `console.log(data.avatar.childImageSharp.fixed)` prints. -/
def showFixed : Option Fixed → String
  | none => "undefined"
  | some f => "\x7b width: " ++ toString f.width ++ ", height: " ++ toString f.height
      ++ ", src: " ++ f.src ++ " \x7d"

/-- A thrown JavaScript error (reading a property of `undefined`, or
destructuring `undefined`, throws a TypeError). -/
inductive JsError where
  | typeError (msg : String)
  deriving Repr, DecidableEq

/-- The outcome of one render: the console trace it emitted and the
markup it returned. -/
structure RenderResult where
  trace : List String
  markup : Node

/-! ### The component, translated from src/components/bio.js -/

/-- The `require('../../content/assets/beanloop_symbol_positiv.png')`
bundled asset URL (statically bundled, not taken from the query). -/
def bundledLogoSrc : String := "../../content/assets/beanloop_symbol_positiv.png"

/-- `CustomImage` from bio.js: a hard-coded `img` element.  Note the
source writes `maxWith: 42` (a misspelling of `maxWidth`) and sizes the
image with `width: "auto"`, `height: "auto"`; it reads nothing from the
resolved query. -/
def CustomImage : Node :=
  Node.element "img"
    [("maxWith", StyleVal.num 42), ("maxHeight", StyleVal.num 42),
     ("width", StyleVal.str "auto"), ("height", StyleVal.str "auto"),
     ("flexShrink", StyleVal.num 0), ("marginRight", StyleVal.num 16)]
    [("src", bundledLogoSrc), ("alt", "Beanloop logotype")]
    []

/-- The JSX tree returned by the render callback, as a function of the
destructured `author` and of `social.twitter`. -/
def bioMarkup (author : Option String) (twitter : Option String) : Node :=
  Node.element "div"
    [("display", StyleVal.str "flex"), ("marginBottom", StyleVal.num 0),
     ("alignItems", StyleVal.str "center")] []
    [ CustomImage,
      Node.element "div" [] []
        [ Node.element "p" [] []
            ([Node.element "strong" [] [] (jsxChild author)] ++
             [Node.text ", the passion for modern web technologies and app development."] ++
             [Node.text " "] ++
             [Node.element "a" [] [("href", "https://twitter.com/" ++ jsInterp twitter)]
                [Node.text "Follow us on Twitter"]]) ] ]

/-- The `Bio` render callback from bio.js, step by step:
`const { author, social } = data.site.siteMetadata` (throws if
`data.site` or the metadata record is absent), then
`console.log(data.avatar.childImageSharp.fixed)` (throws if `avatar` or
`childImageSharp` is absent), then the JSX tree, inside which
`social.twitter` is read (throws if `social` is absent). -/
def Bio (data : QueryData) : Except JsError RenderResult :=
  match data.site with
  | none => .error (.typeError "Cannot read properties of undefined (reading siteMetadata)")
  | some site =>
    match site.siteMetadata with
    | none => .error (.typeError "Cannot destructure property author of data.site.siteMetadata as it is undefined")
    | some meta =>
      match data.avatar with
      | none => .error (.typeError "Cannot read properties of undefined (reading childImageSharp)")
      | some avatar =>
        match avatar.childImageSharp with
        | none => .error (.typeError "Cannot read properties of undefined (reading fixed)")
        | some cis =>
          match meta.social with
          | none => .error (.typeError "Cannot read properties of undefined (reading twitter)")
          | some social =>
            .ok { trace := [showFixed cis.fixed],
                  markup := bioMarkup meta.author social.twitter }

/-- Build mode of the static-site build.  The render path in bio.js
reads no build flag, so rendering in any mode is the same function. -/
inductive BuildMode where
  | development
  | production
  deriving Repr, DecidableEq

/-- Rendering the Bio component in a given build mode: bio.js consults
no mode flag, so the mode is ignored. -/
def BioInBuild (_mode : BuildMode) (data : QueryData) : Except JsError RenderResult :=
  Bio data

/-! ### Concrete resolved inputs for witnesses -/

/-- The 50×50 variant that `fixed(width: 50, height: 50)` resolves to. -/
def fixed50 : Fixed :=
  { width := 50, height := 50, src := "/static/beanloop_symbol_positiv.png" }

/-- Fully-resolved query data with every queried field present. -/
def mkData (author twitter : Option String) (fx : Option Fixed) : QueryData :=
  { avatar := some { childImageSharp := some { fixed := fx } },
    site := some { siteMetadata := some { author := author, social := some { twitter := twitter } } } }

def goodData : QueryData := mkData (some "Beanloop") (some "beanloop_ab") (some fixed50)

def goodResult : RenderResult :=
  { trace := [showFixed (some fixed50)],
    markup := bioMarkup (some "Beanloop") (some "beanloop_ab") }

/-- The claim's reading of "the image element declares dimensions w×h":
the element's style or attributes give width w and height h. -/
def declaresDims (img : Node) (w h : Nat) : Prop :=
  (styleLookup img "width" = some (StyleVal.num w)
      ∨ attrLookup img "width" = some (toString w))
  ∧ (styleLookup img "height" = some (StyleVal.num h)
      ∨ attrLookup img "height" = some (toString h))

instance (img : Node) (w h : Nat) : Decidable (declaresDims img w h) := by
  unfold declaresDims
  infer_instance

example : Bio goodData = .ok goodResult := rfl

/-! ### Build / listing layer

The repository's build and listing code (front-matter validation, slug
resolution, the post listing) is not among the source files here; only
the content files and the spec describe it.  The definitions below are
therefore modelled from the spec (sections 3, 7(a), 8). -/

/-- Modelled from the spec: the front-matter header of a content file,
"a front-matter block of recognized keys (`title`, `date`,
`description`)"; a field may be absent.  The publish date is a
timestamp. -/
structure FrontMatter where
  title : Option String
  date : Option Nat
  description : Option String
  deriving Repr, DecidableEq

/-- Modelled from the spec: a Markdown document of the content store,
"a front-matter header (title, date, description) and a body". -/
structure ContentFile where
  path : String
  frontMatter : FrontMatter
  body : String
  deriving Repr, DecidableEq

/-- Modelled from the spec: a Post record, "identified by file
path/slug; attributes: title (string), publish date (timestamp),
description (string), body (Markdown text)"; title and date are present
in a listed post. -/
structure Post where
  slug : String
  title : String
  date : Nat
  description : Option String
  body : String
  deriving Repr, DecidableEq

/-- Modelled from the spec: a build-time error "identifying the
offending file or query". -/
inductive BuildError where
  | missingField (path field : String)
  | slugConflict (slug : String)
  deriving Repr, DecidableEq

/-- Modelled from the spec: a post is "identified by file path/slug";
the slug is resolved from the file path. -/
def slugOf (f : ContentFile) : String := f.path

/-- Modelled from the spec, section 7(a): a missing front-matter field
"should be surfaced as a build-time validation error, not silently
defaulted"; title and date must be present for the post to be listed. -/
def validateFile (f : ContentFile) : Except BuildError Post :=
  match f.frontMatter.title with
  | none => .error (.missingField f.path "title")
  | some t =>
    match f.frontMatter.date with
    | none => .error (.missingField f.path "date")
    | some d =>
      .ok { slug := slugOf f, title := t, date := d,
            description := f.frontMatter.description, body := f.body }

/-- Validate every content file, aborting at the first invalid one. -/
def validateAll : List ContentFile → Except BuildError (List Post)
  | [] => .ok []
  | f :: fs =>
    match validateFile f with
    | .error e => .error e
    | .ok p =>
      match validateAll fs with
      | .error e => .error e
      | .ok ps => .ok (p :: ps)

/-- First element of the list that occurs again later, if any. -/
def findDup : List String → Option String
  | [] => none
  | s :: ss => if s ∈ ss then some s else findDup ss

/-- Modelled from the spec, section 8: "Two content files with identical
slugs ... must be detected and reported as a conflict rather than
silently overwriting one another".  Slugs are resolved from file paths
alone, so the conflict check runs on the content files themselves. -/
def checkSlugs (files : List ContentFile) : Except BuildError Unit :=
  match findDup (files.map slugOf) with
  | some s => .error (.slugConflict s)
  | none => .ok ()

/-- Modelled from the spec, section 8: the listing orders posts "by date
(descending)". -/
def listPosts (posts : List Post) : List Post :=
  posts.mergeSort (fun a b => Nat.ble b.date a.date)

/-- Modelled from the spec: the whole build of the listing — validate
every content file, detect slug conflicts, and produce the ordered
listing. -/
def buildSite (files : List ContentFile) : Except BuildError (List Post) :=
  match checkSlugs files with
  | .error e => .error e
  | .ok _ =>
    match validateAll files with
    | .error e => .error e
    | .ok posts => .ok (listPosts posts)

/-! ### Helper lemmas -/

/-- Any successful render's result has the shape produced by the render
callback: a one-line console trace and the `bioMarkup` tree. -/
theorem bio_ok_shape {d : QueryData} {r : RenderResult} (h : Bio d = .ok r) :
    ∃ a t fx, r = { trace := [showFixed fx], markup := bioMarkup a t } := by
  unfold Bio at h
  repeat' split at h
  any_goals exact Except.noConfusion h
  injection h with h
  exact ⟨_, _, _, h.symm⟩

/-- The only `img` element in the rendered tree is `CustomImage`. -/
theorem elems_img_bioMarkup (a t : Option String) :
    Node.elemsWithTag "img" (bioMarkup a t) = [CustomImage] := by
  cases a <;> rfl

/-- The only anchor in the rendered tree is the Twitter link. -/
theorem elems_a_bioMarkup (a t : Option String) :
    Node.elemsWithTag "a" (bioMarkup a t)
      = [Node.element "a" [] [("href", "https://twitter.com/" ++ jsInterp t)]
          [Node.text "Follow us on Twitter"]] := by
  cases a <;> rfl

/-- The visible text of the rendered tree when the author is present. -/
theorem textPieces_bioMarkup (a : String) (t : Option String) :
    Node.textPieces (bioMarkup (some a) t)
      = [a, ", the passion for modern web technologies and app development.",
         " ", "Follow us on Twitter"] := rfl

/-! ### Claim theorems for the Bio component -/

/-- C1 counterexample: even when the avatar query resolves to the fixed
50×50 variant, the rendered image element does not declare width 50 and
height 50 — `CustomImage` carries only the hard-coded style
(`maxWith: 42`, `width: "auto"`, ...). -/
theorem bio_image_fifty_refuted :
    Bio (mkData (some "Beanloop") (some "beanloop_ab") (some fixed50)) = .ok goodResult
      ∧ fixed50.width = 50 ∧ fixed50.height = 50
      ∧ Node.elemsWithTag "img" goodResult.markup = [CustomImage]
      ∧ ¬ declaresDims CustomImage 50 50 :=
  ⟨rfl, rfl, rfl, elems_img_bioMarkup _ _, by decide⟩

/-- C1 (amended): the image element in every successful render is the
hard-coded `CustomImage`; its declared sizing is `width: "auto"`,
`height: "auto"` under a misspelled `maxWith: 42` cap, and it never
declares the resolved 50×50 dimensions. -/
theorem bio_image_dims_hardcoded (d : QueryData) (r : RenderResult)
    (h : Bio d = .ok r) :
    Node.elemsWithTag "img" r.markup = [CustomImage]
      ∧ styleLookup CustomImage "width" = some (StyleVal.str "auto")
      ∧ styleLookup CustomImage "height" = some (StyleVal.str "auto")
      ∧ styleLookup CustomImage "maxWith" = some (StyleVal.num 42)
      ∧ ¬ declaresDims CustomImage 50 50 := by
  obtain ⟨a, t, fx, rfl⟩ := bio_ok_shape h
  exact ⟨elems_img_bioMarkup a t, rfl, rfl, rfl, by decide⟩

/-- Witness for `bio_image_dims_hardcoded` at fully-resolved data. -/
theorem bio_image_dims_hardcoded_witness :
    Bio goodData = .ok goodResult
      ∧ (Node.elemsWithTag "img" goodResult.markup = [CustomImage]
          ∧ styleLookup CustomImage "width" = some (StyleVal.str "auto")
          ∧ styleLookup CustomImage "height" = some (StyleVal.str "auto")
          ∧ styleLookup CustomImage "maxWith" = some (StyleVal.num 42)
          ∧ ¬ declaresDims CustomImage 50 50) :=
  ⟨rfl, bio_image_dims_hardcoded goodData goodResult rfl⟩

/-- C2: with author `a` and twitter handle `h` resolved, the render
succeeds, the markup's anchor targets exactly `https://twitter.com/h`,
and the visible text contains `a`. -/
theorem bio_anchor_target_and_author_text (a h : String) (fx : Option Fixed) :
    ∃ r, Bio (mkData (some a) (some h) fx) = .ok r
      ∧ (∃ n ∈ Node.elemsWithTag "a" r.markup,
            attrLookup n "href" = some ("https://twitter.com/" ++ h))
      ∧ a ∈ Node.textPieces r.markup := by
  refine ⟨{ trace := [showFixed fx], markup := bioMarkup (some a) (some h) }, rfl, ?_, ?_⟩
  · refine ⟨Node.element "a" [] [("href", "https://twitter.com/" ++ jsInterp (some h))]
      [Node.text "Follow us on Twitter"], ?_, rfl⟩
    rw [elems_a_bioMarkup]
    exact List.mem_singleton.mpr rfl
  · rw [textPieces_bioMarkup]
    exact List.mem_cons_self a _

/-- C3: the render is a pure function of the resolved data — identical
inputs give byte-identical serialized markup (and identical traces). -/
theorem bio_render_deterministic (d₁ d₂ : QueryData) (h : d₁ = d₂) :
    Except.map (fun r => Node.render r.markup) (Bio d₁)
        = Except.map (fun r => Node.render r.markup) (Bio d₂)
      ∧ Bio d₁ = Bio d₂ := by
  rw [h]
  exact ⟨rfl, rfl⟩

/-- Witness for `bio_render_deterministic`. -/
theorem bio_render_deterministic_witness :
    Except.map (fun r => Node.render r.markup) (Bio goodData)
        = Except.map (fun r => Node.render r.markup) (Bio goodData)
      ∧ Bio goodData = Bio goodData :=
  bio_render_deterministic goodData goodData rfl

/-- C4 counterexample: in a production build, rendering the Bio
component on fully-resolved data still emits the console trace of the
resolved fixed asset — the `console.log` is not gated. -/
theorem bio_trace_in_production :
    BioInBuild BuildMode.production goodData = .ok goodResult
      ∧ goodResult.trace = [showFixed (some fixed50)]
      ∧ goodResult.trace ≠ [] :=
  ⟨rfl, rfl, by simp [goodResult]⟩

/-- C4 (amended): the trace is unconditional — every successful render
emits a non-empty console trace, and the render is identical in every
build mode (no debug flag is consulted). -/
theorem bio_trace_unconditional (m m' : BuildMode) (d : QueryData)
    (r : RenderResult) (h : BioInBuild m d = .ok r) :
    r.trace ≠ [] ∧ BioInBuild m' d = .ok r := by
  have hb : Bio d = .ok r := h
  obtain ⟨a, t, fx, rfl⟩ := bio_ok_shape hb
  exact ⟨by simp, hb⟩

/-- Witness for `bio_trace_unconditional`: a development-mode render,
replayed in production mode. -/
theorem bio_trace_unconditional_witness :
    BioInBuild BuildMode.development goodData = .ok goodResult
      ∧ (goodResult.trace ≠ []
          ∧ BioInBuild BuildMode.production goodData = .ok goodResult) :=
  ⟨rfl, bio_trace_unconditional BuildMode.development BuildMode.production
    goodData goodResult rfl⟩

/-- Resolved data whose site metadata is present but lacks the twitter
handle. -/
def noTwitterData : QueryData := mkData (some "Beanloop") none (some fixed50)

/-- C5 counterexample: with the twitter handle absent (a malformed
SiteMetadata), the render does not abort — it silently produces markup
whose anchor targets the literal `https://twitter.com/undefined`. -/
theorem bio_missing_handle_renders :
    (Bio noTwitterData).isOk = true
      ∧ Bio noTwitterData
          = .ok { trace := [showFixed (some fixed50)],
                  markup := bioMarkup (some "Beanloop") none }
      ∧ (Node.elemsWithTag "a" (bioMarkup (some "Beanloop") none)).map
            (fun n => attrLookup n "href")
          = [some "https://twitter.com/undefined"] := by
  refine ⟨rfl, rfl, ?_⟩
  rw [elems_a_bioMarkup]
  rfl

/-- C5 (amended): the render aborts with a TypeError exactly when one of
the reference records on the accessed paths is absent (`site`,
`siteMetadata`, `avatar`, `childImageSharp`, `social`); an absent
`author` or `twitter` field inside present records does not abort — the
component silently renders, interpolating a missing handle as the string
"undefined". -/
theorem bio_failure_characterization (d : QueryData) :
    ((Bio d).isOk = true ↔
        (∃ av cis, d.avatar = some av ∧ av.childImageSharp = some cis)
          ∧ (∃ st md soc, d.site = some st ∧ st.siteMetadata = some md
              ∧ md.social = some soc))
      ∧ (∀ a fx, Bio (mkData a none fx)
            = .ok { trace := [showFixed fx], markup := bioMarkup a none }) := by
  constructor
  · constructor
    · intro h
      rcases d with ⟨av, st⟩
      rcases st with _ | ⟨md⟩
      · simp [Bio, Except.isOk, Except.toBool] at h
      rcases md with _ | ⟨a, soc⟩
      · simp [Bio, Except.isOk, Except.toBool] at h
      rcases av with _ | ⟨cis⟩
      · simp [Bio, Except.isOk, Except.toBool] at h
      rcases cis with _ | ⟨fx⟩
      · simp [Bio, Except.isOk, Except.toBool] at h
      rcases soc with _ | ⟨tw⟩
      · simp [Bio, Except.isOk, Except.toBool] at h
      exact ⟨⟨_, _, rfl, rfl⟩, _, _, _, rfl, rfl, rfl⟩
    · rintro ⟨⟨av, cis, hav, hcis⟩, st, md, soc, hst, hmd, hsoc⟩
      rcases d with ⟨av', st'⟩
      simp only at hav hst
      subst hav hst
      simp [Bio, hcis, hmd, hsoc, Except.isOk, Except.toBool]
  · intro a fx
    rfl

/-- C6: every successful render's image element is `CustomImage`, whose
alternative text is the non-empty string "Beanloop logotype". -/
theorem bio_image_alt_nonempty (d : QueryData) (r : RenderResult)
    (h : Bio d = .ok r) :
    Node.elemsWithTag "img" r.markup = [CustomImage]
      ∧ attrLookup CustomImage "alt" = some "Beanloop logotype"
      ∧ "Beanloop logotype" ≠ "" := by
  obtain ⟨a, t, fx, rfl⟩ := bio_ok_shape h
  exact ⟨elems_img_bioMarkup a t, rfl, by decide⟩

/-- Witness for `bio_image_alt_nonempty`. -/
theorem bio_image_alt_nonempty_witness :
    Bio goodData = .ok goodResult
      ∧ (Node.elemsWithTag "img" goodResult.markup = [CustomImage]
          ∧ attrLookup CustomImage "alt" = some "Beanloop logotype"
          ∧ "Beanloop logotype" ≠ "") :=
  ⟨rfl, bio_image_alt_nonempty goodData goodResult rfl⟩

/-- C10: the markup is independent of the resolved asset data — two
query results with the same site metadata whose avatar reference paths
are present (whatever the resolved `fixed` variant is) render to the
same markup. -/
theorem bio_markup_independent_of_asset (d₁ d₂ : QueryData)
    (hsite : d₁.site = d₂.site)
    (h₁ : ∃ av cis, d₁.avatar = some av ∧ av.childImageSharp = some cis)
    (h₂ : ∃ av cis, d₂.avatar = some av ∧ av.childImageSharp = some cis) :
    Except.map (fun r => r.markup) (Bio d₁)
      = Except.map (fun r => r.markup) (Bio d₂) := by
  obtain ⟨av₁, cis₁, ha₁, hc₁⟩ := h₁
  obtain ⟨av₂, cis₂, ha₂, hc₂⟩ := h₂
  rcases d₁ with ⟨a1, s1⟩
  rcases d₂ with ⟨a2, s2⟩
  simp only at hsite ha₁ ha₂
  subst hsite ha₁ ha₂
  rcases av₁ with ⟨c1⟩
  rcases av₂ with ⟨c2⟩
  simp only at hc₁ hc₂
  subst hc₁ hc₂
  rcases s1 with _ | ⟨md⟩
  · rfl
  rcases md with _ | ⟨a, soc⟩
  · rfl
  rcases soc with _ | ⟨tw⟩
  · rfl
  rfl

/-- Query data identical to `goodData` except that the avatar's resolved
`fixed` variant is absent. -/
def goodDataAltAsset : QueryData := mkData (some "Beanloop") (some "beanloop_ab") none

/-- Witness for `bio_markup_independent_of_asset`: `goodData` and
`goodDataAltAsset` differ only in the resolved asset variant. -/
theorem bio_markup_independent_of_asset_witness :
    Except.map (fun r => r.markup) (Bio goodData)
      = Except.map (fun r => r.markup) (Bio goodDataAltAsset) :=
  bio_markup_independent_of_asset goodData goodDataAltAsset rfl
    ⟨_, _, rfl, rfl⟩ ⟨_, _, rfl, rfl⟩

/-! ### Claim theorems for the build / listing layer -/

/-- If some file in the list fails validation, `validateAll` errors. -/
theorem validateAll_error_of_mem {files : List ContentFile} {f : ContentFile}
    (hf : f ∈ files) {e : BuildError} (hval : validateFile f = .error e) :
    ∃ e', validateAll files = .error e' := by
  induction files with
  | nil => cases hf
  | cons g gs ih =>
    rcases List.mem_cons.mp hf with rfl | hmem
    · exact ⟨e, by simp [validateAll, hval]⟩
    · cases hg : validateFile g with
      | error e'' => exact ⟨e'', by simp [validateAll, hg]⟩
      | ok p =>
        obtain ⟨e', he'⟩ := ih hmem
        exact ⟨e', by simp [validateAll, hg, he']⟩

/-- C7: a content file with no `title` in its front matter makes the
whole build fail (no listing is produced). -/
theorem missing_title_build_fails (files : List ContentFile) (f : ContentFile)
    (hf : f ∈ files) (ht : f.frontMatter.title = none) :
    (buildSite files).isOk = false := by
  have hval : validateFile f = .error (.missingField f.path "title") := by
    unfold validateFile
    rw [ht]
  obtain ⟨e', he'⟩ := validateAll_error_of_mem hf hval
  unfold buildSite
  cases hs : checkSlugs files with
  | error e => simp [Except.isOk, Except.toBool]
  | ok u => simp [he', Except.isOk, Except.toBool]

/-- A content file of the repository's content store with its `title`
front-matter field removed. -/
def untitledFile : ContentFile :=
  { path := "content/blog/card-style/index.md",
    frontMatter := { title := none, date := some 1576707123, description := none },
    body := "Hey! It is you from the future!" }

/-- Witness for `missing_title_build_fails`. -/
theorem missing_title_build_fails_witness :
    untitledFile ∈ [untitledFile]
      ∧ untitledFile.frontMatter.title = none
      ∧ (buildSite [untitledFile]).isOk = false :=
  ⟨List.mem_singleton.mpr rfl, rfl,
    missing_title_build_fails [untitledFile] untitledFile
      (List.mem_singleton.mpr rfl) rfl⟩

/-- `findDup` returns `none` exactly on duplicate-free lists. -/
theorem findDup_eq_none_iff (l : List String) : findDup l = none ↔ l.Nodup := by
  induction l with
  | nil => simp [findDup]
  | cons s ss ih =>
    by_cases hmem : s ∈ ss
    · simp [findDup, hmem]
    · simp [findDup, hmem, ih]

/-- The build reported a slug conflict. -/
def isSlugConflict : Except BuildError (List Post) → Bool
  | .error (.slugConflict _) => true
  | _ => false

/-- C8: two distinct content files whose resolved slugs coincide make
the build report a slug-conflict error — one never silently overwrites
the other. -/
theorem duplicate_slugs_reported (files : List ContentFile)
    (f g : ContentFile) (hf : f ∈ files) (hg : g ∈ files)
    (hne : f ≠ g) (hslug : slugOf f = slugOf g) :
    isSlugConflict (buildSite files) = true
      ∧ (buildSite files).isOk = false := by
  have hnd : ¬ (files.map slugOf).Nodup := by
    intro hnodup
    exact hne (List.inj_on_of_nodup_map hnodup hf hg hslug)
  have : findDup (files.map slugOf) ≠ none := by
    intro hnone
    exact hnd ((findDup_eq_none_iff _).mp hnone)
  cases hd : findDup (files.map slugOf) with
  | none => exact absurd hd this
  | some s =>
    have hcheck : checkSlugs files = .error (.slugConflict s) := by
      unfold checkSlugs
      rw [hd]
    constructor
    · unfold buildSite
      rw [hcheck]
      rfl
    · unfold buildSite
      rw [hcheck]
      rfl

/-- The repository's own duplicated post (the unnamed draft copy and
content/blog/fp-js-higher-order-functions.md differ only in wording),
modelled as two files resolving to the same slug. -/
def fpDraft : ContentFile :=
  { path := "content/blog/fp-js-higher-order-functions.md",
    frontMatter := { title := some "Higher-order Functions in Javascript",
                     date := some 1576612800,
                     description := some "Learning and using higher-order functions in Javascript" },
    body := "Higher-order functions, you have probably heard the term before." }

def fpPost : ContentFile :=
  { path := "content/blog/fp-js-higher-order-functions.md",
    frontMatter := { title := some "Higher Order Functions in Javascript",
                     date := some 1576612800,
                     description := some "Learning and using higher order functions in Javascript" },
    body := "Higher order functions, you have probably heard the term before." }

/-- Witness for `duplicate_slugs_reported` on the repository's own
duplicated post. -/
theorem duplicate_slugs_reported_witness :
    fpDraft ∈ [fpDraft, fpPost]
      ∧ fpPost ∈ [fpDraft, fpPost]
      ∧ fpDraft ≠ fpPost
      ∧ slugOf fpDraft = slugOf fpPost
      ∧ (isSlugConflict (buildSite [fpDraft, fpPost]) = true
          ∧ (buildSite [fpDraft, fpPost]).isOk = false) :=
  ⟨by simp, by simp, by decide, rfl,
    duplicate_slugs_reported [fpDraft, fpPost] fpDraft fpPost
      (by simp) (by simp) (by decide) rfl⟩

/-- C9: the listing permutes the validated posts — every post appears
with exactly the multiplicity it has in the input (one entry per post,
no duplicates, no omissions) — and is ordered by date descending. -/
theorem listing_exact_and_date_descending (posts : List Post) :
    (listPosts posts).Perm posts
      ∧ (∀ p : Post, (listPosts posts).count p = posts.count p)
      ∧ List.Pairwise (fun a b => b.date ≤ a.date) (listPosts posts) := by
  have hperm : (listPosts posts).Perm posts := List.mergeSort_perm posts _
  refine ⟨hperm, fun p => hperm.count_eq p, ?_⟩
  have hs := @List.sorted_mergeSort Post
    (fun a b : Post => Nat.ble b.date a.date)
    (fun a b c hab hbc => by
      simp only [Nat.ble_eq] at hab hbc ⊢
      exact le_trans hbc hab)
    (fun a b => by
      simp only [Nat.ble_eq, Bool.or_eq_true]
      omega)
    posts
  exact hs.imp (fun h => by simpa [Nat.ble_eq] using h)

end Techblog
